import Mathlib

/-!
Verification of the realtime live-session core (`src/hooks/useLiveSession.ts`)
of the AURA dementia-diagnosis chatbot.

The embedding models, directly from the source:
 * the mutable refs of the hook (`nextStartTimeRef`, `activeSourcesRef`,
   `currentInputTranscriptionRef`, `currentOutputTranscriptionRef`,
   `streamRef`, the audio-context refs, `sessionPromiseRef`) as fields of
   `LiveState`;
 * the `onmessage` callback as a pure step function `onmessage` returning
   the updated state together with an observable trace (emitted chat
   messages, number of decode calls, chunks scheduled, sources stopped);
 * the `processor.onaudioprocess` capture callback as `onaudioprocess`
   over a `MicState` that keeps the hook's `isMuted` state and the value
   the `connect` closure captured when the handler was installed as
   separate fields (the source gives `isMuted` no ref, unlike
   `appModeRef`, so the installed handler reads a stale capture);
 * `cleanup` and the two phases of `connect` (the synchronous part up to
   the `await getUserMedia` suspension point, and the continuation after
   it) as `cleanup`, `connectPhase1`, `connectPhase2`.

Times (audio-context clock and wall clock) are rationals; opaque browser
objects (microphone streams, audio contexts, session handles, buffer
source nodes) are numbered by a fresh-id counter so that resource leaks
are countable. The wire codec (`createBlob`, `decodeAudioData`) is external
to the core and is abstracted: decoding is a parameter
`decode : String → Option ℚ` yielding the decoded buffer's duration, and
a decode failure (`none`) models the `catch` branch.
-/

/-- The `AppMode` enumeration from `src/types.ts`. -/
inductive AppMode
  | CONVERSATION
  | TEST_SETUP
  | TEST_ACTIVE
deriving DecidableEq, Repr

/-- The `ConnectionState` union from `src/types.ts`. -/
inductive ConnectionState
  | disconnected
  | connecting
  | connected
  | error
deriving DecidableEq, Repr

/-- The `role` field of `ChatMessage` from `src/types.ts`. -/
inductive Role
  | user
  | model
deriving DecidableEq, Repr

/-- The `ChatMessage` record from `src/types.ts` (timestamp as a rational instant). -/
structure ChatMessage where
  role : Role
  text : String
  timestamp : ℚ
deriving DecidableEq, Repr

/-- One scheduled `AudioBufferSourceNode`: its identity, the time passed to
`source.start`, and its buffer's duration. -/
structure ScheduledSource where
  id : ℕ
  startTime : ℚ
  duration : ℚ
deriving DecidableEq, Repr

/-- The mutable refs of `useLiveSession`, plus fresh-id bookkeeping.
`micStreams`, `openInCtxs`, `openOutCtxs` and `sessions` track every
microphone stream / audio context / remote session that has been acquired
and not yet released, so that leaks (a ref overwritten without release)
remain visible; the `…Ref` fields are the hook's refs themselves. -/
structure LiveState where
  connectionState : ConnectionState
  errorMsg : Option String
  appMode : AppMode
  nextStartTime : ℚ
  activeSources : List ScheduledSource
  currentInputTranscription : String
  currentOutputTranscription : String
  micStreams : List ℕ
  streamRef : Option ℕ
  openInCtxs : List ℕ
  inCtxRef : Option ℕ
  openOutCtxs : List ℕ
  outCtxRef : Option ℕ
  outputNodeSet : Bool
  sessions : List ℕ
  sessionPromiseRef : Option ℕ
  nextId : ℕ
deriving DecidableEq, Repr

/-- JavaScript `String.prototype.trim` on the buffer contents: strip
leading and trailing whitespace. Written structurally over the character
list so that concrete instances evaluate. -/
def trimStr (s : String) : String :=
  String.mk (((s.data.dropWhile Char.isWhitespace).reverse.dropWhile Char.isWhitespace).reverse)

/-- One `LiveServerMessage` as destructured by `onmessage`:
`serverContent.outputTranscription?.text`, `serverContent.inputTranscription?.text`,
`serverContent.turnComplete`, `serverContent.modelTurn?.parts?.[0]?.inlineData?.data`,
`serverContent.interrupted`. -/
structure ServerMessage where
  outputTranscription : Option String := none
  inputTranscription : Option String := none
  turnComplete : Bool := false
  audioData : Option String := none
  interrupted : Bool := false
deriving DecidableEq, Repr

/-- The observable outcome of one `onmessage` invocation: the new state,
the `ChatMessage`s passed to `onTranscriptionUpdate` (in call order), how
many times `decodeAudioData` was invoked, the sources scheduled by
`source.start`, and the ids of sources force-stopped. -/
structure MsgResult where
  state : LiveState
  emitted : List ChatMessage
  decodeCalls : ℕ
  scheduled : List ScheduledSource
  stopped : List ℕ
deriving DecidableEq, Repr

/-- The `onmessage` callback of `useLiveSession` (`src/hooks/useLiveSession.ts`),
step by step in source order:
1. append any output / input transcription fragment to its buffer;
2. on `turnComplete`, emit a user message then a model message for each
   buffer whose trimmed content is truthy (non-empty), then clear both;
3. if `appModeRef.current === AppMode.TEST_ACTIVE`, return;
4. if the message carries truthy audio data and the output context and
   node exist: raise the cursor to `max(cursor, ctx.currentTime)`, then
   decode; on success schedule at the cursor, advance the cursor by the
   buffer's duration and add the source to the active set (a decode
   failure is caught and only logged);
5. on `interrupted`, stop every active source, clear the active set,
   zero the cursor and discard the output-transcription buffer. -/
def onmessage (decode : String → Option ℚ) (ctxNow wallNow : ℚ)
    (msg : ServerMessage) (s : LiveState) : MsgResult :=
  let outBuf := match msg.outputTranscription with
    | some t => s.currentOutputTranscription ++ t
    | none => s.currentOutputTranscription
  let inBuf := match msg.inputTranscription with
    | some t => s.currentInputTranscription ++ t
    | none => s.currentInputTranscription
  let emitted :=
    if msg.turnComplete then
      (if trimStr inBuf ≠ "" then [ChatMessage.mk Role.user inBuf wallNow] else [])
        ++ (if trimStr outBuf ≠ "" then [ChatMessage.mk Role.model outBuf wallNow] else [])
    else []
  let s1 := { s with
    currentInputTranscription := if msg.turnComplete then "" else inBuf
    currentOutputTranscription := if msg.turnComplete then "" else outBuf }
  if s1.appMode = AppMode.TEST_ACTIVE then
    ⟨s1, emitted, 0, [], []⟩
  else
    let audio : LiveState × ℕ × List ScheduledSource :=
      match msg.audioData with
      | some d =>
        if d ≠ "" ∧ s1.outCtxRef.isSome ∧ s1.outputNodeSet then
          let cur := max s1.nextStartTime ctxNow
          match decode d with
          | some dur =>
            let src : ScheduledSource := ⟨s1.nextId, cur, dur⟩
            ({ s1 with nextStartTime := cur + dur,
                       activeSources := s1.activeSources ++ [src],
                       nextId := s1.nextId + 1 }, 1, [src])
          | none => ({ s1 with nextStartTime := cur }, 1, [])
        else (s1, 0, [])
      | none => (s1, 0, [])
    let s2 := audio.1
    if msg.interrupted then
      ⟨{ s2 with activeSources := [], nextStartTime := 0,
                 currentOutputTranscription := "" },
       emitted, audio.2.1, audio.2.2, s2.activeSources.map (fun src => src.id)⟩
    else
      ⟨s2, emitted, audio.2.1, audio.2.2, []⟩

/-- The `ended` listener registered on each scheduled source: remove that
source from the active set, nothing else. -/
def sourceEnded (srcId : ℕ) (s : LiveState) : LiveState :=
  { s with activeSources := s.activeSources.filter (fun src => src.id ≠ srcId) }

/-- The `cleanup` callback of `useLiveSession`: stop and clear all active sources,
stop the microphone stream, close both audio contexts, close the session,
and set the connection state to `disconnected`. Each release acts only on
the object currently held by its ref. -/
def cleanup (s : LiveState) : LiveState :=
  { s with
    activeSources := [],
    micStreams := match s.streamRef with
      | some id => s.micStreams.erase id
      | none => s.micStreams,
    streamRef := none,
    openInCtxs := match s.inCtxRef with
      | some c => s.openInCtxs.erase c
      | none => s.openInCtxs,
    inCtxRef := none,
    openOutCtxs := match s.outCtxRef with
      | some c => s.openOutCtxs.erase c
      | none => s.openOutCtxs,
    outCtxRef := none,
    sessions := match s.sessionPromiseRef with
      | some p => s.sessions.erase p
      | none => s.sessions,
    sessionPromiseRef := none,
    connectionState := ConnectionState.disconnected }

/-- The synchronous prefix of `connect`, up to the `await getUserMedia`
suspension point: the API-key guard (which only sets the error string and
returns), the cleanup-if-reconnecting check on `sessionPromiseRef`, the
transition to `connecting`, the creation of fresh input/output audio
contexts and gain nodes, and the cursor reset. Returns `true` when the
call proceeds to the suspension point. -/
def connectPhase1 (hasApiKey : Bool) (s : LiveState) : LiveState × Bool :=
  if !hasApiKey then
    ({ s with errorMsg := some "API Key is missing." }, false)
  else
    let s := if s.sessionPromiseRef.isSome then cleanup s else s
    let s := { s with connectionState := ConnectionState.connecting, errorMsg := none }
    let inCtx := s.nextId
    let outCtx := s.nextId + 1
    ({ s with openInCtxs := s.openInCtxs ++ [inCtx], inCtxRef := some inCtx,
              openOutCtxs := s.openOutCtxs ++ [outCtx], outCtxRef := some outCtx,
              nextStartTime := 0, outputNodeSet := true,
              nextId := s.nextId + 2 }, true)

/-- The continuation of `connect` after `await getUserMedia` resolves:
store the new microphone stream in `streamRef`, open the remote session
and store its promise in `sessionPromiseRef`. When `getUserMedia` rejects,
the `catch` block sets the `error` state and the error string instead. -/
def connectPhase2 (gumOk : Bool) (s : LiveState) : LiveState :=
  if gumOk then
    let stream := s.nextId
    let s := { s with micStreams := s.micStreams ++ [stream],
                      streamRef := some stream, nextId := s.nextId + 1 }
    let sess := s.nextId
    { s with sessions := s.sessions ++ [sess],
             sessionPromiseRef := some sess, nextId := s.nextId + 1 }
  else
    { s with connectionState := ConnectionState.error,
             errorMsg := some "Failed to connect" }

/-- One `connect` call run to completion with no other task interleaved at
its suspension point. -/
def connect (hasApiKey gumOk : Bool) (s : LiveState) : LiveState :=
  let r := connectPhase1 hasApiKey s
  if r.2 then connectPhase2 gumOk r.1 else r.1

/-- The mute state around the capture callback. `isMuted` is the hook's
state value (what "the session is muted" means to the spec and the UI);
`capturedMuted` is the value of `isMuted` that the `connect` closure
captured when it installed `processor.onaudioprocess`. The source keeps
`appMode` fresh through `appModeRef` but gives `isMuted` no ref, so the
installed handler keeps reading the captured value, not the current
state. -/
structure MicState where
  isMuted : Bool
  capturedMuted : Bool
deriving DecidableEq, Repr

/-- Installation of the capture processor inside `onopen`: the handler's
closure captures the `isMuted` value current when `connect` was invoked. -/
def installProcessor (isMuted : Bool) : MicState :=
  { isMuted := isMuted, capturedMuted := isMuted }

/-- The hook's `toggleMute` callback, `fun prev => !prev` handed to the
state setter: it flips the hook's state only — the installed
`onaudioprocess` closure is not re-created, so its captured value is
untouched. -/
def toggleMute (m : MicState) : MicState :=
  { m with isMuted := !m.isMuted }

/-- The `processor.onaudioprocess` capture callback: it consults the
`isMuted` its closure captured; when that is set it returns immediately
(the block is dropped); otherwise it hands the block to the session for
transmission (the wire encoding `createBlob` is external and injective on
sample data, so the block itself stands for its encoding). `none` means
nothing was handed to the transport. -/
def onaudioprocess (m : MicState) (block : List ℚ) : Option (List ℚ) :=
  if m.capturedMuted then none else some block

/-- One event in a run of the capture pipeline: a `toggleMute` call or
the arrival of one capture block. -/
inductive CaptureEvent
  | toggle
  | block (samples : List ℚ)
deriving DecidableEq, Repr

/-- A run of the capture pipeline from a given mute state: process the
events in order, returning the final mute state and the blocks handed to
the transport. -/
def runCapture : MicState → List CaptureEvent → MicState × List (List ℚ)
  | m, [] => (m, [])
  | m, CaptureEvent.toggle :: rest => runCapture (toggleMute m) rest
  | m, CaptureEvent.block b :: rest =>
    let r := runCapture m rest
    (r.1, (match onaudioprocess m b with | some x => [x] | none => []) ++ r.2)

/-- Sequential processing of a list of server messages, each tagged with
the audio-context clock and wall clock at its arrival; returns the final
state and all emitted chat messages in order. -/
def runMessages (decode : String → Option ℚ) :
    List (ℚ × ℚ × ServerMessage) → LiveState → LiveState × List ChatMessage
  | [], s => (s, [])
  | (ctxNow, wallNow, msg) :: rest, s =>
    let r := onmessage decode ctxNow wallNow msg s
    let rec' := runMessages decode rest r.state
    (rec'.1, r.emitted ++ rec'.2)

/-- A message carrying a single transcription fragment for one role. -/
def fragMsg : Role → String → ServerMessage
  | Role.user, t => { inputTranscription := some t }
  | Role.model, t => { outputTranscription := some t }

/-- Concatenation of the user-role fragments of a fragment list. -/
def userConcat : List (Role × String) → String
  | [] => ""
  | (Role.user, t) :: rest => t ++ userConcat rest
  | (Role.model, _) :: rest => userConcat rest

/-- Concatenation of the model-role fragments of a fragment list. -/
def modelConcat : List (Role × String) → String
  | [] => ""
  | (Role.model, t) :: rest => t ++ modelConcat rest
  | (Role.user, _) :: rest => modelConcat rest

/-- The state of the hook right after initialisation: every ref null,
every buffer empty, no resource acquired. -/
def initState : LiveState where
  connectionState := ConnectionState.disconnected
  errorMsg := none
  appMode := AppMode.CONVERSATION
  nextStartTime := 0
  activeSources := []
  currentInputTranscription := ""
  currentOutputTranscription := ""
  micStreams := []
  streamRef := none
  openInCtxs := []
  inCtxRef := none
  openOutCtxs := []
  outCtxRef := none
  outputNodeSet := false
  sessions := []
  sessionPromiseRef := none
  nextId := 0

/-! ## Concrete fixtures used by witnesses and counterexamples -/

/-- A connected conversation-mode state with an output context and node,
one active source, a non-zero cursor and a partial model transcript. -/
def sampleState : LiveState where
  connectionState := ConnectionState.connected
  errorMsg := none
  appMode := AppMode.CONVERSATION
  nextStartTime := 5
  activeSources := [⟨3, 1, 4⟩]
  currentInputTranscription := "hi "
  currentOutputTranscription := "well"
  micStreams := [0]
  streamRef := some 0
  openInCtxs := [1]
  inCtxRef := some 1
  openOutCtxs := [2]
  outCtxRef := some 2
  outputNodeSet := true
  sessions := [4]
  sessionPromiseRef := some 4
  nextId := 5

/-- The state `sampleState` while a test is running. -/
def sampleTestState : LiveState :=
  { sampleState with appMode := AppMode.TEST_ACTIVE }

/-- A message carrying one audio chunk. -/
def sampleAudioMsg : ServerMessage := { audioData := some "abc" }

/-- A message carrying only the interruption signal. -/
def sampleInterruptMsg : ServerMessage := { interrupted := true }

/-! ## C1: the mode gate discards audio while a test is active -/

/-- C1: while the operating mode is `test-active`, handling any incoming
message performs no decode and no scheduling, and leaves the active
playback set unchanged. -/
theorem mode_gate_discards_audio (decode : String → Option ℚ) (ctxNow wallNow : ℚ)
    (msg : ServerMessage) (s : LiveState) (h : s.appMode = AppMode.TEST_ACTIVE) :
    (onmessage decode ctxNow wallNow msg s).decodeCalls = 0 ∧
    (onmessage decode ctxNow wallNow msg s).scheduled = [] ∧
    (onmessage decode ctxNow wallNow msg s).state.activeSources = s.activeSources := by
  simp [onmessage, h]

/-- Witness for C1 at a concrete audio-chunk message in test mode. -/
theorem mode_gate_discards_audio_witness :
    sampleTestState.appMode = AppMode.TEST_ACTIVE ∧
    ((onmessage (fun _ => some 2) 1 0 sampleAudioMsg sampleTestState).decodeCalls = 0 ∧
     (onmessage (fun _ => some 2) 1 0 sampleAudioMsg sampleTestState).scheduled = [] ∧
     (onmessage (fun _ => some 2) 1 0 sampleAudioMsg
        sampleTestState).state.activeSources = sampleTestState.activeSources) :=
  ⟨by decide, mode_gate_discards_audio (fun _ => some 2) 1 0 sampleAudioMsg sampleTestState (by decide)⟩

/-! ## C10: while a test is active, `interrupted` has no effect -/

/-- C10: while the operating mode is `test-active`, the `interrupted` flag
of a message is ignored entirely — handling the message gives exactly the
same result as handling it with the flag cleared, no source is stopped,
and the active set and the cursor are untouched (transcription fragments
and `turnComplete`, handled before the early return, still take effect). -/
theorem testActive_interrupted_no_effect (decode : String → Option ℚ) (ctxNow wallNow : ℚ)
    (msg : ServerMessage) (s : LiveState) (h : s.appMode = AppMode.TEST_ACTIVE) :
    onmessage decode ctxNow wallNow msg s
      = onmessage decode ctxNow wallNow { msg with interrupted := false } s ∧
    (onmessage decode ctxNow wallNow msg s).stopped = [] ∧
    (onmessage decode ctxNow wallNow msg s).state.activeSources = s.activeSources ∧
    (onmessage decode ctxNow wallNow msg s).state.nextStartTime = s.nextStartTime := by
  simp [onmessage, h]

/-- Witness for C10: an interruption arriving mid-test leaves the concrete
state alone. -/
theorem testActive_interrupted_no_effect_witness :
    sampleTestState.appMode = AppMode.TEST_ACTIVE ∧
    (onmessage (fun _ => none) 0 0 sampleInterruptMsg sampleTestState
      = onmessage (fun _ => none) 0 0 { sampleInterruptMsg with interrupted := false } sampleTestState ∧
    (onmessage (fun _ => none) 0 0 sampleInterruptMsg sampleTestState).stopped = [] ∧
    (onmessage (fun _ => none) 0 0 sampleInterruptMsg
        sampleTestState).state.activeSources = sampleTestState.activeSources ∧
    (onmessage (fun _ => none) 0 0 sampleInterruptMsg
        sampleTestState).state.nextStartTime = sampleTestState.nextStartTime) :=
  ⟨by decide, testActive_interrupted_no_effect (fun _ => none) 0 0 sampleInterruptMsg sampleTestState (by decide)⟩

/-! ## C3: the interruption reset is skipped while a test is active -/

/-- Counterexample to C3 as stated, on both clauses it gets wrong.
First, "regardless of operating mode" fails: an `interrupted()` received
while the mode is `test-active` leaves the active playback set non-empty,
the cursor non-zero and the partial model transcript in place — the
test-active early return exits before the interruption branch. Second,
"no chunk belonging to the interrupted turn is scheduled after this reset
even if it arrives late" fails: chunks carry no turn tag, so the
scheduler treats a late chunk of the interrupted turn like any other —
an audio chunk arriving in the next message after a conversation-mode
interruption is decoded and scheduled. -/
theorem interrupted_claim_counterexample :
    ((onmessage (fun _ => some 2) 0 0 sampleInterruptMsg
        sampleTestState).state.activeSources ≠ [] ∧
     (onmessage (fun _ => some 2) 0 0 sampleInterruptMsg
        sampleTestState).state.nextStartTime ≠ 0 ∧
     (onmessage (fun _ => some 2) 0 0 sampleInterruptMsg
        sampleTestState).state.currentOutputTranscription ≠ "") ∧
    ((onmessage (fun _ => some 2) 1 0 sampleAudioMsg
        (onmessage (fun _ => some 2) 0 0 sampleInterruptMsg
          sampleState).state).decodeCalls = 1 ∧
     (onmessage (fun _ => some 2) 1 0 sampleAudioMsg
        (onmessage (fun _ => some 2) 0 0 sampleInterruptMsg
          sampleState).state).scheduled ≠ []) := by
  decide

/-- Message handling never changes the operating mode, the output context
ref, or the output node. -/
theorem onmessage_frame (decode : String → Option ℚ) (ctxNow wallNow : ℚ)
    (msg : ServerMessage) (s : LiveState) :
    (onmessage decode ctxNow wallNow msg s).state.appMode = s.appMode ∧
    (onmessage decode ctxNow wallNow msg s).state.outCtxRef = s.outCtxRef ∧
    (onmessage decode ctxNow wallNow msg s).state.outputNodeSet = s.outputNodeSet := by
  simp only [onmessage]
  split
  · simp
  · cases had : msg.audioData with
    | none => cases hi : msg.interrupted <;> simp
    | some d =>
      by_cases hg : d ≠ "" ∧ (Option.isSome s.outCtxRef = true) ∧ s.outputNodeSet = true
      · cases hdd : decode d <;> cases hi : msg.interrupted <;> simp [hg, hdd]
      · cases hi : msg.interrupted <;> simp [hg]

/-- The scheduler has no notion of turns: any truthy chunk that decodes is
scheduled whenever the mode gate is open and the output context and node
exist, however late it arrives. -/
theorem audio_always_scheduled (decode : String → Option ℚ) (ctxNow wallNow : ℚ)
    (d : String) (dur : ℚ) (t : LiveState)
    (hmode : t.appMode ≠ AppMode.TEST_ACTIVE)
    (hctx : t.outCtxRef.isSome = true) (hnode : t.outputNodeSet = true)
    (hd : d ≠ "") (hdec : decode d = some dur) :
    (onmessage decode ctxNow wallNow { audioData := some d } t).scheduled
      = [⟨t.nextId, max t.nextStartTime ctxNow, dur⟩] := by
  simp only [onmessage]
  split
  · next h => exact absurd h hmode
  · simp [hd, hctx, hnode, hdec]

/-- C3 (amended): for every `interrupted()` event processed while the
operating mode is NOT `test-active`: every unit that was in the active set
is stopped, the set is left empty, the cursor is reset to zero, the
accumulated model transcript for the turn is discarded, and even a chunk
scheduled earlier in the very same message's handling is stopped (within
the handling of the message nothing runs after the reset). Chunks carry
no turn tag, however, so an audio chunk arriving in a later message after
the reset — a late chunk of the interrupted turn included — is decoded
and scheduled rather than suppressed. -/
theorem interrupted_resets_playback (decode : String → Option ℚ) (ctxNow wallNow : ℚ)
    (msg : ServerMessage) (s : LiveState) (hmode : s.appMode ≠ AppMode.TEST_ACTIVE)
    (hint : msg.interrupted = true) :
    (onmessage decode ctxNow wallNow msg s).state.activeSources = [] ∧
    (onmessage decode ctxNow wallNow msg s).state.nextStartTime = 0 ∧
    (onmessage decode ctxNow wallNow msg s).state.currentOutputTranscription = "" ∧
    (∀ src ∈ s.activeSources, src.id ∈ (onmessage decode ctxNow wallNow msg s).stopped) ∧
    (∀ src ∈ (onmessage decode ctxNow wallNow msg s).scheduled,
        src.id ∈ (onmessage decode ctxNow wallNow msg s).stopped) ∧
    (∀ (d : String) (dur ctx2 wall2 : ℚ), d ≠ "" → decode d = some dur →
        s.outCtxRef.isSome = true → s.outputNodeSet = true →
        (onmessage decode ctx2 wall2 { audioData := some d }
            (onmessage decode ctxNow wallNow msg s).state).scheduled ≠ []) := by
  have hlate : ∀ (d : String) (dur ctx2 wall2 : ℚ), d ≠ "" → decode d = some dur →
      s.outCtxRef.isSome = true → s.outputNodeSet = true →
      (onmessage decode ctx2 wall2 { audioData := some d }
          (onmessage decode ctxNow wallNow msg s).state).scheduled ≠ [] := by
    intro d dur ctx2 wall2 hd hdec hctx hnode
    obtain ⟨f1, f2, f3⟩ := onmessage_frame decode ctxNow wallNow msg s
    rw [audio_always_scheduled decode ctx2 wall2 d dur _
      (by rw [f1]; exact hmode) (by rw [f2]; exact hctx)
      (by rw [f3]; exact hnode) hd hdec]
    simp
  have hmain : (onmessage decode ctxNow wallNow msg s).state.activeSources = [] ∧
      (onmessage decode ctxNow wallNow msg s).state.nextStartTime = 0 ∧
      (onmessage decode ctxNow wallNow msg s).state.currentOutputTranscription = "" ∧
      (∀ src ∈ s.activeSources, src.id ∈ (onmessage decode ctxNow wallNow msg s).stopped) ∧
      (∀ src ∈ (onmessage decode ctxNow wallNow msg s).scheduled,
          src.id ∈ (onmessage decode ctxNow wallNow msg s).stopped) := by
    simp only [onmessage, hint]
    split
    · next h => exact absurd h hmode
    · cases msg.audioData with
      | none => simpa using fun src hsrc => ⟨src, hsrc, rfl⟩
      | some d =>
        by_cases hg : d ≠ "" ∧ (Option.isSome s.outCtxRef = true) ∧ s.outputNodeSet = true
        · cases hdec : decode d with
          | none => simpa [hg, hdec] using fun src hsrc => ⟨src, hsrc, rfl⟩
          | some dur =>
            simp [hg, hdec]
            exact fun src hsrc => Or.inl ⟨src, hsrc, rfl⟩
        · simpa [hg] using fun src hsrc => ⟨src, hsrc, rfl⟩
  exact ⟨hmain.1, hmain.2.1, hmain.2.2.1, hmain.2.2.2.1, hmain.2.2.2.2, hlate⟩

/-- Witness for the amended C3 at a concrete conversation-mode state with
an active source, a non-zero cursor and a partial model transcript. -/
theorem interrupted_resets_playback_witness :
    (sampleState.appMode ≠ AppMode.TEST_ACTIVE ∧ sampleInterruptMsg.interrupted = true) ∧
    ((onmessage (fun _ : String => some (2:ℚ)) 0 0 sampleInterruptMsg
        sampleState).state.activeSources = [] ∧
     (onmessage (fun _ : String => some (2:ℚ)) 0 0 sampleInterruptMsg
        sampleState).state.nextStartTime = 0 ∧
     (onmessage (fun _ : String => some (2:ℚ)) 0 0 sampleInterruptMsg
        sampleState).state.currentOutputTranscription = "" ∧
     (∀ src ∈ sampleState.activeSources,
        src.id ∈ (onmessage (fun _ : String => some (2:ℚ)) 0 0 sampleInterruptMsg
          sampleState).stopped) ∧
     (∀ src ∈ (onmessage (fun _ : String => some (2:ℚ)) 0 0 sampleInterruptMsg
          sampleState).scheduled,
        src.id ∈ (onmessage (fun _ : String => some (2:ℚ)) 0 0 sampleInterruptMsg
          sampleState).stopped) ∧
     (∀ (d : String) (dur ctx2 wall2 : ℚ), d ≠ "" →
        (fun _ : String => some (2:ℚ)) d = some dur →
        sampleState.outCtxRef.isSome = true → sampleState.outputNodeSet = true →
        (onmessage (fun _ : String => some (2:ℚ)) ctx2 wall2 { audioData := some d }
            (onmessage (fun _ : String => some (2:ℚ)) 0 0 sampleInterruptMsg
              sampleState).state).scheduled ≠ [])) :=
  ⟨⟨by decide, by decide⟩,
   interrupted_resets_playback (fun _ : String => some (2:ℚ)) 0 0 sampleInterruptMsg
     sampleState (by decide) (by decide)⟩

/-! ## C5: turn completion clears both accumulator buffers -/

/-- C5: immediately after any message whose `turnComplete` flag is set has
been handled, both transcription accumulator buffers are empty, whether or
not either buffer produced an emitted message. -/
theorem turn_complete_clears_buffers (decode : String → Option ℚ) (ctxNow wallNow : ℚ)
    (msg : ServerMessage) (s : LiveState) (h : msg.turnComplete = true) :
    (onmessage decode ctxNow wallNow msg s).state.currentInputTranscription = "" ∧
    (onmessage decode ctxNow wallNow msg s).state.currentOutputTranscription = "" := by
  obtain ⟨mo, mi, tc, ad, int⟩ := msg
  simp only at h
  subst h
  simp only [onmessage]
  split
  · simp
  · cases ad with
    | none => cases int <;> simp
    | some d =>
      by_cases hg : d ≠ "" ∧ (Option.isSome s.outCtxRef = true) ∧ s.outputNodeSet = true
      · cases hdec : decode d <;> cases int <;> simp [hg, hdec]
      · cases int <;> simp [hg]

/-- Witness for C5: a completed turn with a whitespace-only user buffer (no
message emitted for it) and a non-empty model buffer still clears both. -/
theorem turn_complete_clears_buffers_witness :
    ({ outputTranscription := some "!", turnComplete := true : ServerMessage }.turnComplete = true) ∧
    ((onmessage (fun _ => none) 0 0 { outputTranscription := some "!", turnComplete := true }
        { sampleState with currentInputTranscription := " " }).state.currentInputTranscription = "" ∧
     (onmessage (fun _ => none) 0 0 { outputTranscription := some "!", turnComplete := true }
        { sampleState with currentInputTranscription := " " }).state.currentOutputTranscription = "") :=
  ⟨by decide,
   turn_complete_clears_buffers (fun _ => none) 0 0
     { outputTranscription := some "!", turnComplete := true }
     { sampleState with currentInputTranscription := " " } (by decide)⟩

/-! ## C2: the mute flag is a stale closure capture -/

/-- C2 fails on the code: after a mid-session `toggleMute`, the session is
muted (the hook's `isMuted` is `true`), yet the installed capture callback
still reads the `isMuted` value its closure captured when `connect` was
invoked (the source refs `appMode` through `appModeRef` for exactly this
reason but leaves `isMuted` un-reffed), so the block is handed to the
transport instead of being dropped: over the run
`[toggle, block [1]]` from an unmuted connect, the muted block `[1]` is
transmitted. -/
theorem muted_block_transmitted_bug :
    (toggleMute (installProcessor false)).isMuted = true ∧
    onaudioprocess (toggleMute (installProcessor false)) [1] = some [1] ∧
    (runCapture (installProcessor false)
        [CaptureEvent.toggle, CaptureEvent.block [1]]).1.isMuted = true ∧
    (runCapture (installProcessor false)
        [CaptureEvent.toggle, CaptureEvent.block [1]]).2 = [[1]] := by
  decide

/-! ## C7: connect with a missing API key -/

/-- Counterexample to C7 as stated: `connect` with the credential missing
surfaces the error string, but the connection state does NOT become
`error` — the early return fires before any `setConnectionState` call, so
a disconnected session stays `disconnected`. -/
theorem connect_missing_key_counterexample :
    (connect false true initState).errorMsg = some "API Key is missing." ∧
    (connect false true initState).connectionState = ConnectionState.disconnected ∧
    (connect false true initState).connectionState ≠ ConnectionState.error := by
  decide

/-- C7 (amended): when `connect` is invoked while the API credential is
missing, a user-facing error string is surfaced, the connection state is
left exactly as it was (in particular it does not move to `error`), and no
microphone stream, audio context, or remote session is acquired. -/
theorem connect_missing_key_no_acquisition (gumOk : Bool) (s : LiveState) :
    (connect false gumOk s).errorMsg = some "API Key is missing." ∧
    (connect false gumOk s).connectionState = s.connectionState ∧
    (connect false gumOk s).micStreams = s.micStreams ∧
    (connect false gumOk s).openInCtxs = s.openInCtxs ∧
    (connect false gumOk s).openOutCtxs = s.openOutCtxs ∧
    (connect false gumOk s).sessions = s.sessions ∧
    (connect false gumOk s).sessionPromiseRef = s.sessionPromiseRef := by
  simp [connect, connectPhase1]

/-! ## C4: verbatim accumulation and ordered emission at turn completion -/

/-- A message carrying a single transcription fragment changes nothing but
the matching accumulator buffer, to which the fragment is appended
verbatim; nothing is emitted, decoded, scheduled or stopped. -/
theorem onmessage_fragMsg (decode : String → Option ℚ) (ctxNow wallNow : ℚ)
    (r : Role) (t : String) (s : LiveState) :
    onmessage decode ctxNow wallNow (fragMsg r t) s =
      ⟨{ s with
          currentInputTranscription :=
            s.currentInputTranscription ++ (match r with | Role.user => t | Role.model => ""),
          currentOutputTranscription :=
            s.currentOutputTranscription ++ (match r with | Role.model => t | Role.user => "") },
        [], 0, [], []⟩ := by
  cases r <;> simp only [onmessage, fragMsg] <;> split <;> simp

/-- Feeding a list of fragments through `onmessage` appends the user-role
fragments, in order, to the user buffer and the model-role fragments to
the model buffer, emitting nothing and touching nothing else. -/
theorem runMessages_fragMsgs (decode : String → Option ℚ)
    (frags : List (Role × String)) (s : LiveState) :
    runMessages decode (frags.map (fun p => ((0:ℚ), (0:ℚ), fragMsg p.1 p.2))) s =
      ({ s with
          currentInputTranscription := s.currentInputTranscription ++ userConcat frags,
          currentOutputTranscription := s.currentOutputTranscription ++ modelConcat frags },
        []) := by
  induction frags generalizing s with
  | nil => simp [runMessages, userConcat, modelConcat]
  | cons p rest ih =>
    obtain ⟨r, t⟩ := p
    cases r <;>
      simp [runMessages, onmessage_fragMsg, ih, userConcat, modelConcat, String.append_assoc]

/-- C4: starting a turn with both accumulators empty, delivering any list
of role-tagged fragments and then a `turnComplete` message emits — at the
wall-clock instant of the completion — one user message carrying exactly
the concatenation of the user fragments when its trimmed text is
non-empty, followed by one model message carrying exactly the
concatenation of the model fragments when its trimmed text is non-empty,
and nothing else. -/
theorem turn_complete_emission (decode : String → Option ℚ) (ctxNow wallNow : ℚ)
    (frags : List (Role × String)) (s : LiveState)
    (hin : s.currentInputTranscription = "") (hout : s.currentOutputTranscription = "") :
    (onmessage decode ctxNow wallNow { turnComplete := true }
        (runMessages decode (frags.map (fun p => ((0:ℚ), (0:ℚ), fragMsg p.1 p.2))) s).1).emitted
      = (if trimStr (userConcat frags) ≠ "" then
            [ChatMessage.mk Role.user (userConcat frags) wallNow] else [])
        ++ (if trimStr (modelConcat frags) ≠ "" then
            [ChatMessage.mk Role.model (modelConcat frags) wallNow] else []) := by
  rw [runMessages_fragMsgs]
  simp only [onmessage, hin, hout]
  split <;> simp

/-- Witness for C4, the spec's scenario: fragments `"Hel"` then
`"lo there"` for the user role followed by `turnComplete` yield exactly
one user `ChatMessage` with text `"Hello there"`. -/
theorem turn_complete_emission_witness :
    (initState.currentInputTranscription = "" ∧ initState.currentOutputTranscription = "") ∧
    (onmessage (fun _ => none) 0 7 { turnComplete := true }
        (runMessages (fun _ => none)
          ([(Role.user, "Hel"), (Role.user, "lo there")].map
            (fun p => ((0:ℚ), (0:ℚ), fragMsg p.1 p.2))) initState).1).emitted
      = [ChatMessage.mk Role.user "Hello there" 7] := by
  refine ⟨⟨rfl, rfl⟩, ?_⟩
  rw [turn_complete_emission (fun _ => none) 0 7
    [(Role.user, "Hel"), (Role.user, "lo there")] initState rfl rfl]
  decide

/-! ## C8: back-to-back chunk scheduling -/

/-- C8: a chunk scheduled without an intervening interruption or reset
starts at `max(cursor, deviceClockNow)` and advances the cursor by its
duration immediately; hence for chunks A then B, with B offered before A
finishes, B starts exactly when A ends. -/
theorem chunk_schedule_times (decode : String → Option ℚ) (ctx1 wall1 ctx2 wall2 : ℚ)
    (dA dB : String) (durA durB : ℚ) (s : LiveState)
    (hmode : s.appMode ≠ AppMode.TEST_ACTIVE)
    (hctx : s.outCtxRef.isSome = true) (hnode : s.outputNodeSet = true)
    (hA : dA ≠ "") (hB : dB ≠ "")
    (hdecA : decode dA = some durA) (hdecB : decode dB = some durB)
    (hlate : ctx2 ≤ max s.nextStartTime ctx1 + durA) :
    (onmessage decode ctx1 wall1 { audioData := some dA } s).scheduled
        = [⟨s.nextId, max s.nextStartTime ctx1, durA⟩] ∧
    (onmessage decode ctx1 wall1 { audioData := some dA } s).state.nextStartTime
        = max s.nextStartTime ctx1 + durA ∧
    (onmessage decode ctx2 wall2 { audioData := some dB }
        (onmessage decode ctx1 wall1 { audioData := some dA } s).state).scheduled
      = [⟨s.nextId + 1, max s.nextStartTime ctx1 + durA, durB⟩] := by
  have h1 : onmessage decode ctx1 wall1 { audioData := some dA } s =
      ⟨{ s with nextStartTime := max s.nextStartTime ctx1 + durA,
                activeSources := s.activeSources ++ [⟨s.nextId, max s.nextStartTime ctx1, durA⟩],
                nextId := s.nextId + 1 },
        [], 1, [⟨s.nextId, max s.nextStartTime ctx1, durA⟩], []⟩ := by
    simp only [onmessage]
    split
    · next h => exact absurd h hmode
    · simp [hA, hctx, hnode, hdecA]
  rw [h1]
  refine ⟨rfl, rfl, ?_⟩
  simp only [onmessage]
  split
  · next h => exact absurd h hmode
  · simp [hB, hctx, hnode, hdecB, max_eq_left hlate]

/-- Witness for C8: from a fresh cursor, chunk A (duration 1) scheduled at
device time 0, chunk B offered at device time 0 before A finishes starts
exactly at A's end. -/
theorem chunk_schedule_times_witness :
    (sampleState.appMode ≠ AppMode.TEST_ACTIVE ∧ sampleState.outCtxRef.isSome = true ∧
     sampleState.outputNodeSet = true ∧ ("a" : String) ≠ "" ∧ ("b" : String) ≠ "" ∧
     ((0:ℚ) ≤ max sampleState.nextStartTime 0 + 1)) ∧
    ((onmessage (fun _ => some 1) 0 0 { audioData := some "a" } sampleState).scheduled
        = [⟨sampleState.nextId, max sampleState.nextStartTime 0, 1⟩] ∧
     (onmessage (fun _ => some 1) 0 0 { audioData := some "a" } sampleState).state.nextStartTime
        = max sampleState.nextStartTime 0 + 1 ∧
     (onmessage (fun _ => some 1) 0 0 { audioData := some "b" }
        (onmessage (fun _ => some 1) 0 0 { audioData := some "a" } sampleState).state).scheduled
        = [⟨sampleState.nextId + 1, max sampleState.nextStartTime 0 + 1, 1⟩]) :=
  ⟨⟨by decide, by decide, by decide, by decide, by decide,
    le_add_of_nonneg_of_le (le_max_of_le_right le_rfl) zero_le_one⟩,
   chunk_schedule_times (fun _ => some 1) 0 0 0 0 "a" "b" 1 1 sampleState
     (by decide) (by decide) (by decide) (by decide) (by decide) rfl rfl
     (le_add_of_nonneg_of_le (le_max_of_le_right le_rfl) zero_le_one)⟩

/-! ## C9: the cursor never moves backward except on the two resets -/

/-- C9: under every operation of the core the playback cursor never
decreases — message handling only raises it through `max` with the device
clock and addition of the (non-negative) chunk duration — except exactly
at the two explicit resets that zero it: the `interrupted` branch (outside
test mode) and the start of a new `connect`; source completion, `cleanup`
and the post-`getUserMedia` half of `connect` leave it untouched. -/
theorem cursor_monotone_except_resets (decode : String → Option ℚ) (ctxNow wallNow : ℚ)
    (msg : ServerMessage) (s : LiveState) (i : ℕ) (gumOk : Bool)
    (hdec : ∀ d dur, decode d = some dur → 0 ≤ dur) :
    (¬(msg.interrupted = true ∧ s.appMode ≠ AppMode.TEST_ACTIVE) →
        s.nextStartTime ≤ (onmessage decode ctxNow wallNow msg s).state.nextStartTime) ∧
    (msg.interrupted = true → s.appMode ≠ AppMode.TEST_ACTIVE →
        (onmessage decode ctxNow wallNow msg s).state.nextStartTime = 0) ∧
    (sourceEnded i s).nextStartTime = s.nextStartTime ∧
    (cleanup s).nextStartTime = s.nextStartTime ∧
    (connectPhase1 true s).1.nextStartTime = 0 ∧
    (connectPhase2 gumOk s).nextStartTime = s.nextStartTime := by
  refine ⟨?_, ?_, rfl, rfl, ?_, ?_⟩
  · intro hni
    simp only [onmessage]
    split
    · simp
    · next hmod =>
      have hint : msg.interrupted = false := by
        rcases Bool.eq_false_or_eq_true msg.interrupted with hb | hb
        · exact absurd ⟨hb, hmod⟩ hni
        · exact hb
      cases had : msg.audioData with
      | none => simp [hint, had]
      | some d =>
        by_cases hg : d ≠ "" ∧ (Option.isSome s.outCtxRef = true) ∧ s.outputNodeSet = true
        · cases hdd : decode d with
          | none => simp [hint, had, hg, hdd]
          | some dur =>
            simp [hint, had, hg, hdd]
            calc s.nextStartTime ≤ max s.nextStartTime ctxNow := le_max_left _ _
              _ ≤ max s.nextStartTime ctxNow + dur :=
                  le_add_of_nonneg_right (hdec d dur hdd)
        · simp [hint, had, hg]
  · intro hint hmode
    simp only [onmessage]
    split
    · next hmod => exact absurd hmod hmode
    · simp [hint]
  · simp [connectPhase1]
  · cases gumOk <;> rfl

/-- Witness for C9 at a concrete non-interrupting audio message, a source
completion, and both halves of a reconnect. -/
theorem cursor_monotone_except_resets_witness :
    (∀ (d : String) (dur : ℚ), (fun _ : String => some (1:ℚ)) d = some dur → 0 ≤ dur) ∧
    ((¬(sampleAudioMsg.interrupted = true ∧ sampleState.appMode ≠ AppMode.TEST_ACTIVE) →
        sampleState.nextStartTime ≤
          (onmessage (fun _ => some 1) 2 0 sampleAudioMsg sampleState).state.nextStartTime) ∧
     (sampleAudioMsg.interrupted = true → sampleState.appMode ≠ AppMode.TEST_ACTIVE →
        (onmessage (fun _ => some 1) 2 0 sampleAudioMsg sampleState).state.nextStartTime = 0) ∧
     (sourceEnded 3 sampleState).nextStartTime = sampleState.nextStartTime ∧
     (cleanup sampleState).nextStartTime = sampleState.nextStartTime ∧
     (connectPhase1 true sampleState).1.nextStartTime = 0 ∧
     (connectPhase2 true sampleState).nextStartTime = sampleState.nextStartTime) :=
  ⟨fun d dur h => by simp only [Option.some.injEq] at h; subst h; decide,
   cursor_monotone_except_resets (fun _ => some 1) 2 0 sampleAudioMsg sampleState 3 true
     (fun d dur h => by simp only [Option.some.injEq] at h; subst h; decide)⟩

/-! ## C6: single-active-session discipline across reconnects -/

/-- The resource lists agree with the refs: nothing acquired is held
outside the hook's refs. -/
def WellFormed (s : LiveState) : Prop :=
  s.micStreams = s.streamRef.toList ∧ s.sessions = s.sessionPromiseRef.toList ∧
  s.openInCtxs = s.inCtxRef.toList ∧ s.openOutCtxs = s.outCtxRef.toList

/-- A state between settled `connect` calls: well-formed, and either a
session handle has been assigned or no device is held at all. -/
def Settled (s : LiveState) : Prop :=
  WellFormed s ∧ (s.sessionPromiseRef.isSome = true ∨
    (s.streamRef = none ∧ s.inCtxRef = none ∧ s.outCtxRef = none))

/-- On a well-formed state, `cleanup` releases every resource. -/
theorem cleanup_releases (s : LiveState) (h : WellFormed s) :
    (cleanup s).micStreams = [] ∧ (cleanup s).streamRef = none ∧
    (cleanup s).sessions = [] ∧ (cleanup s).sessionPromiseRef = none ∧
    (cleanup s).openInCtxs = [] ∧ (cleanup s).inCtxRef = none ∧
    (cleanup s).openOutCtxs = [] ∧ (cleanup s).outCtxRef = none := by
  obtain ⟨hm, hs, hin, hout⟩ := h
  cases hst : s.streamRef <;> cases hic : s.inCtxRef <;> cases hoc : s.outCtxRef <;>
    cases hsp : s.sessionPromiseRef <;>
      simp_all [cleanup, Option.toList]

/-- One settled `connect` yields exactly one of each resource and lands in
a settled state again. -/
theorem connect_settled (s : LiveState) (h : Settled s) :
    (connect true true s).micStreams.length = 1 ∧
    (connect true true s).sessions.length = 1 ∧
    (connect true true s).openInCtxs.length = 1 ∧
    (connect true true s).openOutCtxs.length = 1 ∧
    Settled (connect true true s) := by
  obtain ⟨hwf, hd⟩ := h
  cases hsp : s.sessionPromiseRef with
  | some p =>
    obtain ⟨c1, c2, c3, c4, c5, c6, c7, c8⟩ := cleanup_releases s hwf
    simp [connect, connectPhase1, connectPhase2, hsp, c1, c2, c3, c4, c5, c6, c7, c8,
      Settled, WellFormed, Option.toList]
  | none =>
    obtain ⟨hm, hs, hin, hout⟩ := hwf
    rcases hd with hd | ⟨h1, h2, h3⟩
    · rw [hsp] at hd; simp at hd
    · simp [connect, connectPhase1, connectPhase2, hsp, hm, hs, hin, hout, h1, h2, h3,
        Settled, WellFormed, Option.toList]

/-- Counterexample to C6 as stated: two `connect()` calls interleaved at
the `getUserMedia` suspension point — the second arriving while the first
is still settling, before `sessionPromiseRef` is assigned — each skip the
teardown check and, after both settle, two microphone streams and two
remote sessions are open (the first stream and session leak). -/
theorem connect_interleaved_counterexample :
    (connectPhase2 true (connectPhase2 true
        (connectPhase1 true (connectPhase1 true initState).1).1)).micStreams.length = 2 ∧
    (connectPhase2 true (connectPhase2 true
        (connectPhase1 true (connectPhase1 true initState).1).1)).sessions.length = 2 := by
  decide

/-- C6 (amended): when the second `connect` arrives after the first has
settled (its session handle assigned — the state any sequence of settled
calls leaves behind), the pre-existing session is fully torn down before
the new one is established, and after both calls settle exactly one
microphone stream, one remote session, and one audio context of each kind
exist. -/
theorem connect_twice_single_session (s : LiveState) (h : Settled s) :
    (connect true true (connect true true s)).micStreams.length = 1 ∧
    (connect true true (connect true true s)).sessions.length = 1 ∧
    (connect true true (connect true true s)).openInCtxs.length = 1 ∧
    (connect true true (connect true true s)).openOutCtxs.length = 1 :=
  ⟨(connect_settled _ (connect_settled s h).2.2.2.2).1,
   (connect_settled _ (connect_settled s h).2.2.2.2).2.1,
   (connect_settled _ (connect_settled s h).2.2.2.2).2.2.1,
   (connect_settled _ (connect_settled s h).2.2.2.2).2.2.2.1⟩

/-- Witness for the amended C6 from the freshly initialised state. -/
theorem connect_twice_single_session_witness :
    Settled initState ∧
    ((connect true true (connect true true initState)).micStreams.length = 1 ∧
     (connect true true (connect true true initState)).sessions.length = 1 ∧
     (connect true true (connect true true initState)).openInCtxs.length = 1 ∧
     (connect true true (connect true true initState)).openOutCtxs.length = 1) :=
  ⟨⟨⟨rfl, rfl, rfl, rfl⟩, Or.inr ⟨rfl, rfl, rfl⟩⟩,
   connect_twice_single_session initState ⟨⟨rfl, rfl, rfl, rfl⟩, Or.inr ⟨rfl, rfl, rfl⟩⟩⟩
